import Mathlib

set_option autoImplicit false

namespace AIClassifier

/-- Python strings are modelled as lists of characters. -/
abbrev Str := List Char

/-- The whitespace class of Python str.strip, restricted to the ASCII
whitespace characters: space, tab, newline, carriage return, vertical
tab, form feed. -/
def isPySpace (c : Char) : Bool :=
  c == ' ' || c == '\t' || c == '\n' || c == '\r' || c == '\x0b' || c == '\x0c'

/-- Embedding of Python str.strip(): remove leading and trailing
whitespace characters. -/
def pyStrip (s : Str) : Str :=
  ((s.dropWhile isPySpace).reverse.dropWhile isPySpace).reverse

/-- Embedding of Python str.isdigit() on ASCII strings: true exactly for
nonempty strings consisting of digit characters. -/
def pyIsDigit (s : Str) : Bool :=
  !s.isEmpty && s.all Char.isDigit

/-- Shallow model of the JSON values exchanged with the tariff service.
Numbers are modelled as rationals. -/
inductive Json where
  | null
  | bool (b : Bool)
  | num (q : Rat)
  | str (s : Str)
  | arr (xs : List Json)
  | obj (fields : List (Str × Json))

/-- The outcome of one outbound httpx GET request: either a transport
failure (connect error or timeout, i.e. an httpx.HTTPError raised at the
request), or a response carrying a status code and a body; body none
models a body on which .json() raises ValueError. -/
inductive ReqOutcome where
  | netErr
  | response (status : Nat) (body : Option Json)

/-- The external tariff service, as a map from request URL to outcome. -/
def Env := Str → ReqOutcome

/-- An exception escaping a gateway operation to its caller (an uncaught
httpx.HTTPError such as a timeout). -/
inductive PyExc where
  | httpError
deriving DecidableEq

/-- Result of running one gateway operation against an environment: the
list of request URLs issued, and either the returned value or an
exception propagated to the caller. -/
abbrev GatewayRun := List Str × Except PyExc Json

/-- _CLEAR_BASE in tools.py. -/
def clearBase : Str := "https://api.clear.ai/api/v1/au_tariff".data

/-- The flattened-tariffs URL built by tariff_chapter_lookup and
tariff_search, embedding the (stripped) code. -/
def tariffsUrl (code : Str) : Str :=
  clearBase ++ "/tariffs/chapter_flatten_tariffs?code=".data ++ code

/-- The chapter-notes URL built by tariff_chapter_lookup, embedding the
two-digit chapter code. -/
def notesUrl (chapterCode : Str) : Str :=
  clearBase ++ "/chapters/by_code?code=".data ++ chapterCode

/-- The Schedule-4 concession search URL built by
tariff_concession_lookup, embedding the by-law number. -/
def concessionUrl (num : Str) : Str :=
  "https://api.clear.ai/api/v1/au_tariff/book_nodes/search?term=".data
    ++ num ++ "&book_ref=AU_TARIFF_SCHED4_2022".data

def rawDataKey : Str := "rawData".data

def chapterNotesKey : Str := "chapterNotes".data

def resultsKey : Str := "results".data

/-- The default value of tariff_chapter_lookup for malformed input. -/
def chapterDefault : Json := .obj [(rawDataKey, .arr []), (chapterNotesKey, .null)]

/-- The value tariff_concession_lookup returns for a malformed by-law
number. -/
def concessionInvalid : Json :=
  .obj [(resultsKey, .arr []), ("content".data, .str "invalid by-law number".data)]

/-- The value tariff_concession_lookup returns on a non-200 status, a
parse failure or a transport error. -/
def concessionEmpty : Json := .obj [(resultsKey, .arr [])]

/-- How tariff_chapter_lookup turns the two request outcomes into its
result (tools.py lines 92-108). The two client.get awaits sit outside
any try/except, so a transport failure on either request propagates an
httpx.HTTPError to the caller. When both requests produce responses,
each body is parsed under its own try/except: rawData is the parsed
tariffs body on a 200 status (the empty list on a non-200 status or a
parse failure), chapterNotes is the parsed notes body on a 200 status
(null on a non-200 status or a parse failure). -/
def chapterResultE (o1 o2 : ReqOutcome) : Except PyExc Json :=
  match o1, o2 with
  | .netErr, _ => .error .httpError
  | _, .netErr => .error .httpError
  | .response s1 b1, .response s2 b2 =>
    .ok (.obj [(rawDataKey, if s1 = 200 then b1.getD (.arr []) else .arr []),
               (chapterNotesKey, if s2 = 200 then b2.getD .null else .null)])

/-- How tariff_search turns its request outcome into its result
(tools.py lines 120-131). The whole interaction sits inside a try/except
catching httpx.HTTPError and ValueError, so a transport failure returns
the empty list; a non-200 status returns the empty list; a parse failure
returns the empty list; a parsed body is returned when it is a list and
replaced by the empty list otherwise. -/
def searchResultE (o : ReqOutcome) : Except PyExc Json :=
  match o with
  | .netErr => .ok (.arr [])
  | .response s b =>
    if s ≠ 200 then .ok (.arr [])
    else
      match b with
      | none => .ok (.arr [])
      | some data => .ok (match data with | .arr xs => .arr xs | _ => .arr [])

/-- How tariff_concession_lookup turns its request outcome into its
result (tools.py lines 146-156). The whole interaction sits inside a
try/except catching httpx.HTTPError and ValueError, so a transport
failure, a non-200 status and a parse failure all return the
empty-results value; a 200 response with a parsable body is returned as
parsed. -/
def concessionResultE (o : ReqOutcome) : Except PyExc Json :=
  match o with
  | .netErr => .ok concessionEmpty
  | .response s b =>
    if s ≠ 200 then .ok concessionEmpty
    else
      match b with
      | none => .ok concessionEmpty
      | some data => .ok data

/-- Embedding of tariff_chapter_lookup from
src/ai_classifier/au/tools.py. The input is stripped; malformed input
(non-digit or fewer than 4 digits) returns the default without any
request. Valid input issues the flattened-tariffs request for the full
code and the chapter-notes request for its first two digits; both
requests are dispatched by asyncio.gather whatever their outcomes, and
the result is chapterResultE of the two outcomes. -/
def tariff_chapter_lookup (env : Env) (hs_code_4_or_more : Str) : GatewayRun :=
  let code := pyStrip hs_code_4_or_more
  if ¬ pyIsDigit code ∨ code.length < 4 then
    ([], .ok chapterDefault)
  else
    ([tariffsUrl code, notesUrl (code.take 2)],
      chapterResultE (env (tariffsUrl code)) (env (notesUrl (code.take 2))))

/-- Embedding of tariff_search from src/ai_classifier/au/tools.py. The
input is stripped; malformed input (non-digit or length outside 2..8)
returns the empty list without any request. Valid input issues one
flattened-tariffs request and the result is searchResultE of its
outcome. -/
def tariff_search (env : Env) (hs_code_2_to_8 : Str) : GatewayRun :=
  let code := pyStrip hs_code_2_to_8
  if ¬ pyIsDigit code ∨ ¬ (2 ≤ code.length ∧ code.length ≤ 8) then
    ([], .ok (.arr []))
  else
    ([tariffsUrl code], searchResultE (env (tariffsUrl code)))

/-- Embedding of tariff_concession_lookup from
src/ai_classifier/au/tools.py. The input is stripped; a non-digit by-law
number returns the invalid sentinel without any request. Valid input
issues one book-node search request and the result is concessionResultE
of its outcome. -/
def tariff_concession_lookup (env : Env) (bylaw_number : Str) : GatewayRun :=
  let num := pyStrip bylaw_number
  if ¬ pyIsDigit num then
    ([], .ok concessionInvalid)
  else
    ([concessionUrl num], concessionResultE (env (concessionUrl num)))

/-- Lookup of a key in the field list of a JSON object. -/
def jsonLookup (fields : List (Str × Json)) (key : Str) : Option Json :=
  match fields with
  | [] => none
  | (k, v) :: rest => if k = key then some v else jsonLookup rest key

/-- Embedding of the pydantic SuggestedCode model from tools.py. All
three fields are declared as plain strings (tco_link optional, default
None); the 8-digit / 2-digit / URL-template requirements appear only in
the field descriptions, which pydantic does not enforce. -/
structure SuggestedCode where
  hs_code : Str
  stat_code : Str
  tco_link : Option Str := none
deriving DecidableEq, Repr

/-- Embedding of the pydantic ClassificationResult model from tools.py.
The code fields are plain strings; other_suggested_codes is a plain list
with default_factory=list, so its declared default is the empty list and
no length or distinctness constraint is enforced. total_time_seconds is
an optional number, modelled as a rational. -/
structure ClassificationResult where
  id : Str
  description : Str
  supplier_name : Option Str := none
  best_suggested_hs_code : Str
  best_suggested_stat_code : Str
  best_suggested_tco_link : Option Str := none
  other_suggested_codes : List SuggestedCode := []
  total_time_seconds : Option Rat := none
  reasoning : Str
deriving DecidableEq, Repr

/-- Pydantic runtime validation of a required str field: present and a
JSON string. -/
def validateStr (fields : List (Str × Json)) (key : Str) : Option Str :=
  match jsonLookup fields key with
  | some (.str s) => some s
  | _ => none

/-- Pydantic runtime validation of an Optional[str] field with default
None: missing or null yields none, a JSON string yields the string,
anything else is rejected. -/
def validateOptStr (fields : List (Str × Json)) (key : Str) : Option (Option Str) :=
  match jsonLookup fields key with
  | none => some none
  | some .null => some none
  | some (.str s) => some (some s)
  | some _ => none

/-- Pydantic runtime validation of an Optional[float] field with default
None. -/
def validateOptNum (fields : List (Str × Json)) (key : Str) : Option (Option Rat) :=
  match jsonLookup fields key with
  | none => some none
  | some .null => some none
  | some (.num q) => some (some q)
  | some _ => none

/-- Pydantic model validation for SuggestedCode: field presence and
runtime types only, mirroring the model declaration in tools.py, which
attaches no pattern, length or digits-only validator to any field. -/
def SuggestedCode.validate (j : Json) : Option SuggestedCode :=
  match j with
  | .obj fields => do
    let hs ← validateStr fields "hs_code".data
    let st ← validateStr fields "stat_code".data
    let link ← validateOptStr fields "tco_link".data
    some { hs_code := hs, stat_code := st, tco_link := link }
  | _ => none

/-- Element-wise pydantic validation of a JSON array against
List[SuggestedCode]: every element must validate; any length passes. -/
def validateCodes : List Json → Option (List SuggestedCode)
  | [] => some []
  | x :: xs => do
    let c ← SuggestedCode.validate x
    let cs ← validateCodes xs
    some (c :: cs)

/-- Pydantic model serialization (model_dump) for SuggestedCode. -/
def SuggestedCode.dump (c : SuggestedCode) : Json :=
  .obj [("hs_code".data, .str c.hs_code),
        ("stat_code".data, .str c.stat_code),
        ("tco_link".data, match c.tco_link with | none => .null | some s => .str s)]

/-- Pydantic model validation for ClassificationResult: field presence
and runtime types only, mirroring the model declaration in tools.py. A
missing other_suggested_codes takes the declared default (the empty
list); when present it may be a list of any length, each element
validated as a SuggestedCode. -/
def ClassificationResult.validate (j : Json) : Option ClassificationResult :=
  match j with
  | .obj fields => do
    let i ← validateStr fields "id".data
    let d ← validateStr fields "description".data
    let sup ← validateOptStr fields "supplier_name".data
    let hs ← validateStr fields "best_suggested_hs_code".data
    let st ← validateStr fields "best_suggested_stat_code".data
    let link ← validateOptStr fields "best_suggested_tco_link".data
    let others ←
      match jsonLookup fields "other_suggested_codes".data with
      | none => some []
      | some (.arr xs) => validateCodes xs
      | some _ => none
    let t ← validateOptNum fields "total_time_seconds".data
    let r ← validateStr fields "reasoning".data
    some { id := i, description := d, supplier_name := sup,
           best_suggested_hs_code := hs, best_suggested_stat_code := st,
           best_suggested_tco_link := link, other_suggested_codes := others,
           total_time_seconds := t, reasoning := r }
  | _ => none

/-- Pydantic model serialization (model_dump) for ClassificationResult. -/
def ClassificationResult.dump (r : ClassificationResult) : Json :=
  .obj [("id".data, .str r.id),
        ("description".data, .str r.description),
        ("supplier_name".data, match r.supplier_name with | none => .null | some s => .str s),
        ("best_suggested_hs_code".data, .str r.best_suggested_hs_code),
        ("best_suggested_stat_code".data, .str r.best_suggested_stat_code),
        ("best_suggested_tco_link".data, match r.best_suggested_tco_link with | none => .null | some s => .str s),
        ("other_suggested_codes".data, .arr (r.other_suggested_codes.map SuggestedCode.dump)),
        ("total_time_seconds".data, match r.total_time_seconds with | none => .null | some q => .num q),
        ("reasoning".data, .str r.reasoning)]

/-- The spec-side shape requirement: a string of exactly n digit
characters. -/
def isDigitsOfLen (n : Nat) (s : Str) : Bool :=
  s.length == n && s.all Char.isDigit

/-- The fixed TCO URL template head from the tco_link field description
in tools.py. -/
def tcoHead : Str :=
  "https://www.abf.gov.au/tariff-classification-subsite/Pages/TariffConcessionOrders.aspx?tcn=".data

/-- The documented TCO link for an 8-digit dot-free code. -/
def tcoLinkTemplate (code : Str) : Str := tcoHead ++ code

/-- Whether a string matches the documented TCO URL template: the fixed
head followed by exactly 8 digit characters. -/
def matchesTcoTemplate (s : Str) : Bool :=
  s.take tcoHead.length == tcoHead && isDigitsOfLen 8 (s.drop tcoHead.length)

/-- An environment in which every request gets an HTTP 500 response with
an unparsable body. -/
def http500Env : Env := fun _ => .response 500 none

/-- An environment in which the flattened-tariffs request for code 8471
fails at the transport level (for example a timeout) and every other
request succeeds with an empty list body. -/
def netFailEnv : Env := fun u =>
  if u = tariffsUrl "8471".data then .netErr else .response 200 (some (.arr []))

/-- An environment in which the flattened-tariffs request for code 8471
returns HTTP 500 with an unparsable body while every other request
succeeds with a string body. -/
def tariffsFailEnv : Env := fun u =>
  if u = tariffsUrl "8471".data then .response 500 none
  else .response 200 (some (.str "notes for chapter 84".data))

/-- An environment in which the chapter-notes request for chapter 84
returns an unparsable body while every other request succeeds with a
one-element list body. -/
def notesFailEnv : Env := fun u =>
  if u = notesUrl "84".data then .response 200 none
  else .response 200 (some (.arr [.str "row".data]))

/-- An environment in which every request succeeds with a one-element
list body. -/
def okListEnv : Env := fun _ => .response 200 (some (.arr [.str "row".data]))

/-- The value tariff_search builds from a parsed 200 body: the list
itself when the body parsed to a list, the empty list when parsing
failed or produced a non-list. -/
def parsedListOrEmpty (b : Option Json) : Json :=
  match b with
  | some (.arr xs) => .arr xs
  | _ => .arr []

/-- Whether a gateway run returned normally to its caller (true) or let
an exception escape (false). -/
def runReturns (r : GatewayRun) : Bool :=
  match r.2 with
  | .ok _ => true
  | .error _ => false

/-- A ClassificationResult that pydantic accepts although its
other_suggested_codes has length zero (the declared default), violating
the exactly-two documentation. -/
def emptyOthersResult : ClassificationResult :=
  { id := "1".data, description := "office chair".data,
    best_suggested_hs_code := "94012000".data,
    best_suggested_stat_code := "61".data,
    other_suggested_codes := [],
    reasoning := "seats".data }

/-- A SuggestedCode that pydantic accepts although hs_code contains a
dot and stat_code is not two digits. -/
def dottedCode : SuggestedCode :=
  { hs_code := "9401.20.00".data, stat_code := "6A".data }

/-- A SuggestedCode that pydantic accepts although its tco_link does not
match the documented TCO URL template. -/
def badLinkCode : SuggestedCode :=
  { hs_code := "94012000".data, stat_code := "61".data,
    tco_link := some "http://example.com/not-a-tco".data }

/-! ### Facts about the Python string helpers -/

theorem isPySpace_eq_false_of_isDigit {c : Char} (h : c.isDigit = true) :
    isPySpace c = false := by
  cases hs : isPySpace c with
  | false => rfl
  | true =>
    exfalso
    simp only [isPySpace, Bool.or_eq_true, beq_iff_eq] at hs
    rcases hs with ((((h1 | h2) | h3) | h4) | h5) | h6 <;> subst_vars <;>
      exact absurd h (by decide)

theorem pyIsDigit_iff {s : Str} :
    pyIsDigit s = true ↔ s ≠ [] ∧ ∀ a ∈ s, a.isDigit = true := by
  simp [pyIsDigit, List.all_eq_true, List.isEmpty_iff]

theorem dropWhile_append_of_all {p : Char → Bool} {w s : Str}
    (hw : ∀ a ∈ w, p a = true) :
    (w ++ s).dropWhile p = s.dropWhile p := by
  induction w with
  | nil => rfl
  | cons a t ih =>
    have ha : p a = true := hw a (List.mem_cons_self a t)
    simp only [List.cons_append, List.dropWhile_cons, ha, if_true]
    exact ih fun x hx => hw x (List.mem_cons_of_mem a hx)

theorem dropWhile_cons_of_neg {p : Char → Bool} {c : Char} {s : Str}
    (h : p c = false) : (c :: s).dropWhile p = c :: s := by
  simp [List.dropWhile_cons, h]

/-- Python str.strip removes exactly the surrounding whitespace padding
from a padded digit string. -/
theorem pyStrip_pad {w1 w2 c : Str}
    (hw1 : ∀ a ∈ w1, isPySpace a = true)
    (hw2 : ∀ a ∈ w2, isPySpace a = true)
    (hc : pyIsDigit c = true) :
    pyStrip (w1 ++ c ++ w2) = c := by
  obtain ⟨hne, hdig⟩ := pyIsDigit_iff.mp hc
  have hfront : (w1 ++ c ++ w2).dropWhile isPySpace = c ++ w2 := by
    rw [List.append_assoc, dropWhile_append_of_all hw1]
    obtain ⟨d, t, rfl⟩ := List.exists_cons_of_ne_nil hne
    rw [List.cons_append]
    exact dropWhile_cons_of_neg
      (isPySpace_eq_false_of_isDigit (hdig d (List.mem_cons_self d t)))
  have hback : ((c ++ w2).reverse).dropWhile isPySpace = c.reverse := by
    rw [List.reverse_append, dropWhile_append_of_all
      (fun a ha => hw2 a (List.mem_reverse.mp ha))]
    obtain ⟨e, u, he⟩ :=
      List.exists_cons_of_ne_nil (by simpa using hne : c.reverse ≠ [])
    have hmem : e ∈ c := List.mem_reverse.mp (by rw [he]; exact List.mem_cons_self e u)
    rw [he, dropWhile_cons_of_neg (isPySpace_eq_false_of_isDigit (hdig e hmem))]
  unfold pyStrip
  rw [hfront, hback, List.reverse_reverse]

/-- Python str.strip is the identity on digit strings. -/
theorem pyStrip_digits {c : Str} (hc : pyIsDigit c = true) : pyStrip c = c := by
  simpa using @pyStrip_pad [] [] c (by simp) (by simp) hc

/-! ### Shared facts about the gateway operations -/

theorem tariff_chapter_lookup_congr (env : Env) {s t : Str}
    (h : pyStrip s = pyStrip t) :
    tariff_chapter_lookup env s = tariff_chapter_lookup env t := by
  unfold tariff_chapter_lookup
  rw [h]

theorem tariff_search_congr (env : Env) {s t : Str}
    (h : pyStrip s = pyStrip t) :
    tariff_search env s = tariff_search env t := by
  unfold tariff_search
  rw [h]

theorem tariff_concession_lookup_congr (env : Env) {s t : Str}
    (h : pyStrip s = pyStrip t) :
    tariff_concession_lookup env s = tariff_concession_lookup env t := by
  unfold tariff_concession_lookup
  rw [h]

/-- Valid input to tariff_chapter_lookup issues exactly the two requests
of tools.py lines 83-92: flattened tariffs for the full stripped code and
chapter notes for its first two digits. -/
theorem chapter_requests_eq (env : Env) {input code : Str}
    (hstrip : pyStrip input = code) (hd : pyIsDigit code = true)
    (hl : 4 ≤ code.length) :
    (tariff_chapter_lookup env input).1 = [tariffsUrl code, notesUrl (code.take 2)] := by
  simp only [tariff_chapter_lookup, hstrip]
  rw [if_neg (by simp [hd]; omega)]

/-- The value tariff_chapter_lookup returns for valid input when both
requests come back as responses: each field is parsed independently. -/
theorem chapter_value_eq (env : Env) {input code : Str} (s1 s2 : Nat)
    (b1 b2 : Option Json)
    (hstrip : pyStrip input = code) (hd : pyIsDigit code = true)
    (hl : 4 ≤ code.length)
    (h1 : env (tariffsUrl code) = .response s1 b1)
    (h2 : env (notesUrl (code.take 2)) = .response s2 b2) :
    (tariff_chapter_lookup env input).2 =
      .ok (.obj [(rawDataKey, if s1 = 200 then b1.getD (.arr []) else .arr []),
                 (chapterNotesKey, if s2 = 200 then b2.getD .null else .null)]) := by
  simp only [tariff_chapter_lookup, hstrip]
  rw [if_neg (by simp [hd]; omega), h1, h2]
  rfl

/-- Valid input to tariff_search issues exactly one request, to the
flattening endpoint, whatever the outcome. -/
theorem search_requests_eq (env : Env) {input code : Str}
    (hstrip : pyStrip input = code) (hd : pyIsDigit code = true)
    (h2 : 2 ≤ code.length) (h8 : code.length ≤ 8) :
    (tariff_search env input).1 = [tariffsUrl code] := by
  simp only [tariff_search, hstrip]
  rw [if_neg (by simp [hd]; omega)]

/-- The value tariff_search returns for valid input when the request
comes back as a response: the parsed list on a 200 list body, the empty
list otherwise. -/
theorem search_value_eq (env : Env) {input code : Str} (s : Nat) (b : Option Json)
    (hstrip : pyStrip input = code) (hd : pyIsDigit code = true)
    (h2 : 2 ≤ code.length) (h8 : code.length ≤ 8)
    (h : env (tariffsUrl code) = .response s b) :
    (tariff_search env input).2 =
      .ok (if s = 200 then parsedListOrEmpty b else Json.arr []) := by
  simp only [tariff_search, hstrip]
  rw [if_neg (by simp [hd]; omega), h]
  simp only [searchResultE]
  by_cases hs : s = 200
  · subst hs
    rw [if_neg (by omega : ¬ (200 : Nat) ≠ 200), if_pos rfl]
    cases b with
    | none => rfl
    | some data => cases data <;> rfl
  · rw [if_pos hs, if_neg hs]

/-- Valid input to tariff_concession_lookup issues exactly one request,
to the book-node search endpoint, whatever the outcome. -/
theorem concession_requests_eq (env : Env) {input code : Str}
    (hstrip : pyStrip input = code) (hd : pyIsDigit code = true) :
    (tariff_concession_lookup env input).1 = [concessionUrl code] := by
  simp only [tariff_concession_lookup, hstrip]
  rw [if_neg (by simp [hd])]

/-- tariff_search wraps its whole network interaction in a try/except
catching httpx.HTTPError and ValueError, so it returns normally on every
input and every outcome. -/
theorem tariff_search_never_raises (env : Env) (input : Str) :
    runReturns (tariff_search env input) = true := by
  simp only [tariff_search]
  by_cases hg : ¬ pyIsDigit (pyStrip input) = true
      ∨ ¬ (2 ≤ (pyStrip input).length ∧ (pyStrip input).length ≤ 8)
  · rw [if_pos hg]
    rfl
  · rw [if_neg hg]
    cases h : env (tariffsUrl (pyStrip input)) with
    | netErr => rfl
    | response s b =>
      simp only [runReturns, searchResultE]
      by_cases hs : s ≠ 200
      · rw [if_pos hs]
      · rw [if_neg hs]
        cases b with
        | none => rfl
        | some data => rfl

/-- tariff_concession_lookup wraps its whole network interaction in a
try/except catching httpx.HTTPError and ValueError, so it returns
normally on every input and every outcome. -/
theorem tariff_concession_lookup_never_raises (env : Env) (input : Str) :
    runReturns (tariff_concession_lookup env input) = true := by
  simp only [tariff_concession_lookup]
  by_cases hg : ¬ pyIsDigit (pyStrip input) = true
  · rw [if_pos hg]
    rfl
  · rw [if_neg hg]
    cases h : env (concessionUrl (pyStrip input)) with
    | netErr => rfl
    | response s b =>
      simp only [runReturns, concessionResultE]
      by_cases hs : s ≠ 200
      · rw [if_pos hs]
      · rw [if_neg hs]
        cases b with
        | none => rfl
        | some data => rfl

/-! ### Facts about pydantic validation of the data models -/

/-- Pydantic validation accepts what model_dump produced for any
SuggestedCode whatsoever: the declared fields carry no content
validators, so validation is a pure runtime type check. -/
theorem suggestedCode_validate_dump (c : SuggestedCode) :
    SuggestedCode.validate c.dump = some c := by
  rcases c with ⟨hs, st, link⟩
  rcases link with _ | l <;> rfl

theorem validateCodes_dump (cs : List SuggestedCode) :
    validateCodes (cs.map SuggestedCode.dump) = some cs := by
  induction cs with
  | nil => rfl
  | cons c cs ih =>
    simp [validateCodes, suggestedCode_validate_dump, ih]

/-- Pydantic validation accepts what model_dump produced for any
ClassificationResult whatsoever: no field carries a content validator,
so every well-typed instance round-trips. -/
theorem classificationResult_validate_dump (r : ClassificationResult) :
    ClassificationResult.validate r.dump = some r := by
  rcases r with ⟨i, d, sup, hs, st, link, others, t, rsn⟩
  rcases sup with _ | s1 <;> rcases link with _ | s2 <;> rcases t with _ | q <;>
    simp [ClassificationResult.validate, ClassificationResult.dump, jsonLookup,
      validateStr, validateOptStr, validateOptNum, validateCodes_dump]

/-! ### The claims -/

/-- C1: the spec requires every gateway operation to swallow transport
failures (including timeouts) and return its empty/default value, never
raising to the caller. tariff_search and tariff_concession_lookup do
return normally on every input and every outcome, but
tariff_chapter_lookup awaits its two client.get calls outside any
try/except, so a transport failure propagates an httpx.HTTPError: under
an environment where the flattened-tariffs request for code 8471 fails
at the transport level, the call raises instead of returning
{rawData: [], chapterNotes: null}. -/
theorem c1_chapter_lookup_propagates_transport_error :
    (tariff_chapter_lookup netFailEnv "8471".data).2 = .error .httpError
    ∧ (∀ (env : Env) (input : Str), runReturns (tariff_search env input) = true)
    ∧ (∀ (env : Env) (input : Str), runReturns (tariff_concession_lookup env input) = true) :=
  ⟨rfl, tariff_search_never_raises, tariff_concession_lookup_never_raises⟩

/-- C2 counterexample: for tariff_concession_lookup, the value returned
on an HTTP 500 with an unparsable body for a valid by-law number is the
plain empty-results object, while a malformed by-law number yields the
empty-results object extended with a content message; the two values are
not equal, so the failure value does not equal the malformed-input
value for this operation. -/
theorem c2_counterexample :
    (tariff_concession_lookup http500Env "123".data).2 = .ok concessionEmpty
    ∧ (tariff_concession_lookup http500Env "abc".data).2 = .ok concessionInvalid
    ∧ concessionEmpty ≠ concessionInvalid :=
  ⟨rfl, rfl, by simp [concessionEmpty, concessionInvalid]⟩

/-- C2 (amended): for tariff_search, and for tariff_chapter_lookup when
both of its responses fail, a non-200 status or an unparsable body
yields exactly the value returned for a malformed input; for
tariff_concession_lookup the failure value and the malformed-input value
differ (both carry empty results, but the malformed one adds a content
message). -/
theorem c2_failure_value_equals_malformed_value (env : Env) (input : Str) :
    (∀ (s : Nat) (b : Option Json), pyIsDigit (pyStrip input) = true →
      2 ≤ (pyStrip input).length → (pyStrip input).length ≤ 8 →
      env (tariffsUrl (pyStrip input)) = .response s b → (s ≠ 200 ∨ b = none) →
      (tariff_search env input).2 = (tariff_search env "no-digits".data).2)
    ∧ (∀ (s1 s2 : Nat) (b1 b2 : Option Json), pyIsDigit (pyStrip input) = true →
      4 ≤ (pyStrip input).length →
      env (tariffsUrl (pyStrip input)) = .response s1 b1 →
      env (notesUrl ((pyStrip input).take 2)) = .response s2 b2 →
      (s1 ≠ 200 ∨ b1 = none) → (s2 ≠ 200 ∨ b2 = none) →
      (tariff_chapter_lookup env input).2 = (tariff_chapter_lookup env "no-digits".data).2) := by
  constructor
  · intro s b hd h2 h8 h hfail
    rw [search_value_eq env s b rfl hd h2 h8 h]
    rcases hfail with hs | hb
    · rw [if_neg hs]
      rfl
    · subst hb
      by_cases hs : s = 200
      · rw [if_pos hs]
        rfl
      · rw [if_neg hs]
        rfl
  · intro s1 s2 b1 b2 hd hl h1 h2 hf1 hf2
    rw [chapter_value_eq env s1 s2 b1 b2 rfl hd hl h1 h2]
    have e1 : (if s1 = 200 then b1.getD (.arr []) else .arr []) = Json.arr [] := by
      rcases hf1 with hs | hb
      · rw [if_neg hs]
      · subst hb
        by_cases hs : s1 = 200
        · rw [if_pos hs]
          rfl
        · rw [if_neg hs]
    have e2 : (if s2 = 200 then b2.getD .null else .null) = Json.null := by
      rcases hf2 with hs | hb
      · rw [if_neg hs]
      · subst hb
        by_cases hs : s2 = 200
        · rw [if_pos hs]
          rfl
        · rw [if_neg hs]
    rw [e1, e2]
    rfl

/-- C2 witness: the search conjunct at a concrete valid code under an
all-500 environment. -/
theorem c2_witness :
    (tariff_search http500Env "1234".data).2 = (tariff_search http500Env "no-digits".data).2 :=
  (c2_failure_value_equals_malformed_value http500Env "1234".data).1 500 none
    (by decide) (by decide) (by decide) rfl (Or.inl (by decide))

/-- C3 counterexample: pydantic accepts a ClassificationResult whose
other_suggested_codes is the empty list (indeed the declared default),
so the exactly-two invariant does not hold of every ClassificationResult
the schema admits. -/
theorem c3_counterexample :
    ClassificationResult.validate emptyOthersResult.dump = some emptyOthersResult
    ∧ emptyOthersResult.other_suggested_codes.length ≠ 2 :=
  ⟨rfl, by decide⟩

/-- C3 (amended): the schema does not enforce the exactly-two or
distinct-from-best documentation on other_suggested_codes: validation
accepts a ClassificationResult carrying any list of suggested codes
whatsoever (the declared default is the empty list) and returns it
unchanged. -/
theorem c3_other_codes_unconstrained (r : ClassificationResult) (codes : List SuggestedCode) :
    ClassificationResult.validate
        ({ r with other_suggested_codes := codes } : ClassificationResult).dump
      = some { r with other_suggested_codes := codes } :=
  classificationResult_validate_dump _

/-- C4: for every malformed input, each gateway operation issues no
request and returns its documented empty/default value:
{rawData: [], chapterNotes: null} for tariff_chapter_lookup when the
stripped input is non-digit or shorter than 4; the empty list for
tariff_search when it is non-digit or of length outside 2..8; the
invalid-by-law sentinel for tariff_concession_lookup when it is
non-digit. -/
theorem c4_malformed_no_request_default (env : Env) (input : Str) :
    (pyIsDigit (pyStrip input) = false ∨ (pyStrip input).length < 4 →
      tariff_chapter_lookup env input = ([], .ok chapterDefault))
    ∧ (pyIsDigit (pyStrip input) = false ∨ (pyStrip input).length < 2
        ∨ 8 < (pyStrip input).length →
      tariff_search env input = ([], .ok (.arr [])))
    ∧ (pyIsDigit (pyStrip input) = false →
      tariff_concession_lookup env input = ([], .ok concessionInvalid)) := by
  refine ⟨fun h => ?_, fun h => ?_, fun h => ?_⟩
  · have hc : ¬ pyIsDigit (pyStrip input) = true ∨ (pyStrip input).length < 4 := by
      rcases h with h | h
      · exact Or.inl (by simp [h])
      · exact Or.inr h
    simp only [tariff_chapter_lookup]
    rw [if_pos hc]
  · have hc : ¬ pyIsDigit (pyStrip input) = true
        ∨ ¬ (2 ≤ (pyStrip input).length ∧ (pyStrip input).length ≤ 8) := by
      rcases h with h | h | h
      · exact Or.inl (by simp [h])
      · exact Or.inr (by omega)
      · exact Or.inr (by omega)
    simp only [tariff_search]
    rw [if_pos hc]
  · have hc : ¬ pyIsDigit (pyStrip input) = true := by simp [h]
    simp only [tariff_concession_lookup]
    rw [if_pos hc]

/-- C4 witness: the malformed input 12x (digit check fails for all three
operations after stripping). -/
theorem c4_witness :
    tariff_chapter_lookup http500Env "12x".data = ([], .ok chapterDefault)
    ∧ tariff_search http500Env "12x".data = ([], .ok (.arr []))
    ∧ tariff_concession_lookup http500Env "12x".data = ([], .ok concessionInvalid) :=
  ⟨(c4_malformed_no_request_default http500Env "12x".data).1 (Or.inl (by decide)),
   (c4_malformed_no_request_default http500Env "12x".data).2.1 (Or.inl (by decide)),
   (c4_malformed_no_request_default http500Env "12x".data).2.2 (by decide)⟩

/-- C5: for every valid input (all-digit, length at least 4),
tariff_chapter_lookup issues exactly two requests: the flattened-tariffs
URL embedding the full code, and the chapter-notes URL embedding exactly
its first two digits. -/
theorem c5_chapter_two_requests (env : Env) (input : Str)
    (hd : pyIsDigit input = true) (hl : 4 ≤ input.length) :
    (tariff_chapter_lookup env input).1 = [tariffsUrl input, notesUrl (input.take 2)] :=
  chapter_requests_eq env (pyStrip_digits hd) hd hl

/-- C5 witness: the valid code 8471. -/
theorem c5_witness :
    (tariff_chapter_lookup http500Env "8471".data).1 =
      [tariffsUrl "8471".data, notesUrl ("8471".data.take 2)] :=
  c5_chapter_two_requests http500Env "8471".data (by decide) (by decide)

/-- C6: for every valid input, the two responses of
tariff_chapter_lookup degrade independently: when the tariffs response
fails (non-200 or unparsable) while the notes response parses on a 200,
only rawData degrades to the empty list and chapterNotes still carries
the parsed notes; symmetrically, when the notes response fails, only
chapterNotes degrades to null and rawData still carries the parsed
tariffs. -/
theorem c6_independent_degradation (env : Env) (input : Str) (s1 s2 : Nat)
    (b1 b2 : Option Json) (j : Json)
    (hd : pyIsDigit input = true) (hl : 4 ≤ input.length)
    (h1 : env (tariffsUrl input) = .response s1 b1)
    (h2 : env (notesUrl (input.take 2)) = .response s2 b2) :
    ((s1 ≠ 200 ∨ b1 = none) → s2 = 200 → b2 = some j →
      (tariff_chapter_lookup env input).2 =
        .ok (.obj [(rawDataKey, .arr []), (chapterNotesKey, j)]))
    ∧ ((s2 ≠ 200 ∨ b2 = none) → s1 = 200 → b1 = some j →
      (tariff_chapter_lookup env input).2 =
        .ok (.obj [(rawDataKey, j), (chapterNotesKey, .null)])) := by
  have hv := chapter_value_eq env s1 s2 b1 b2 (pyStrip_digits hd) hd hl h1 h2
  constructor
  · intro hf1 hs2 hb2
    subst hs2
    subst hb2
    rw [hv, if_pos rfl]
    have e1 : (if s1 = 200 then b1.getD (.arr []) else .arr []) = Json.arr [] := by
      rcases hf1 with hs | hb
      · rw [if_neg hs]
      · subst hb
        by_cases hs : s1 = 200
        · rw [if_pos hs]
          rfl
        · rw [if_neg hs]
    rw [e1]
    rfl
  · intro hf2 hs1 hb1
    subst hs1
    subst hb1
    rw [hv, if_pos rfl]
    have e2 : (if s2 = 200 then b2.getD .null else .null) = Json.null := by
      rcases hf2 with hs | hb
      · rw [if_neg hs]
      · subst hb
        by_cases hs : s2 = 200
        · rw [if_pos hs]
          rfl
        · rw [if_neg hs]
    rw [e2]
    rfl

/-- C6 witness: tariffs request returns 500 with an unparsable body
while the notes request parses on a 200; only rawData degrades. -/
theorem c6_witness :
    (tariff_chapter_lookup tariffsFailEnv "8471".data).2 =
      .ok (.obj [(rawDataKey, .arr []),
                 (chapterNotesKey, .str "notes for chapter 84".data)]) :=
  (c6_independent_degradation tariffsFailEnv "8471".data 500 200 none
      (some (.str "notes for chapter 84".data)) (.str "notes for chapter 84".data)
      (by decide) (by decide) rfl rfl).1 (Or.inl (by decide)) rfl rfl

/-- C7: for every valid input (all-digit, length 2..8), tariff_search
issues exactly one request, to the flattening endpoint; it returns the
empty list on a non-200 status, on an unparsable body, and on a parsed
body that is not a list; it returns the parsed list on a 200 list
body. -/
theorem c7_search_single_request_value (env : Env) (input : Str) (s : Nat)
    (b : Option Json)
    (hd : pyIsDigit input = true) (h2 : 2 ≤ input.length) (h8 : input.length ≤ 8)
    (h : env (tariffsUrl input) = .response s b) :
    (tariff_search env input).1 = [tariffsUrl input]
    ∧ (s ≠ 200 → (tariff_search env input).2 = .ok (.arr []))
    ∧ (b = none → (tariff_search env input).2 = .ok (.arr []))
    ∧ (∀ j, b = some j → (∀ xs, j ≠ .arr xs) → (tariff_search env input).2 = .ok (.arr []))
    ∧ (∀ xs, s = 200 → b = some (.arr xs) → (tariff_search env input).2 = .ok (.arr xs)) := by
  have hstrip : pyStrip input = input := pyStrip_digits hd
  have hv := search_value_eq env s b hstrip hd h2 h8 h
  refine ⟨search_requests_eq env hstrip hd h2 h8, fun hs => ?_, fun hb => ?_,
    fun j hb hnl => ?_, fun xs hs hb => ?_⟩
  · rw [hv, if_neg hs]
  · subst hb
    rw [hv]
    by_cases hs : s = 200
    · rw [if_pos hs]
      rfl
    · rw [if_neg hs]
  · subst hb
    rw [hv]
    by_cases hs : s = 200
    · rw [if_pos hs]
      cases j with
      | arr xs => exact absurd rfl (hnl xs)
      | null => rfl
      | bool v => rfl
      | num q => rfl
      | str t => rfl
      | obj fs => rfl
    · rw [if_neg hs]
  · subst hs
    subst hb
    rw [hv, if_pos rfl]
    rfl

/-- C7 witness: a valid code under an environment answering 200 with a
one-element list body. -/
theorem c7_witness :
    (tariff_search okListEnv "8471".data).1 = [tariffsUrl "8471".data]
    ∧ (tariff_search okListEnv "8471".data).2 = .ok (.arr [.str "row".data]) :=
  ⟨(c7_search_single_request_value okListEnv "8471".data 200
      (some (.arr [.str "row".data])) (by decide) (by decide) (by decide) rfl).1,
   (c7_search_single_request_value okListEnv "8471".data 200
      (some (.arr [.str "row".data])) (by decide) (by decide) (by decide) rfl).2.2.2.2
     [.str "row".data] rfl rfl⟩

/-- C8 counterexample: pydantic accepts a SuggestedCode whose hs_code
contains dots and whose stat_code is not two digits, so the digit-only
fixed-length invariant does not hold of every SuggestedCode the schema
admits. -/
theorem c8_counterexample :
    SuggestedCode.validate dottedCode.dump = some dottedCode
    ∧ isDigitsOfLen 8 dottedCode.hs_code = false
    ∧ isDigitsOfLen 2 dottedCode.stat_code = false :=
  ⟨rfl, rfl, rfl⟩

/-- C8 (amended): hs_code and stat_code are declared as plain strings
with no pattern or length validator: pydantic validation accepts any
strings whatsoever for the two fields; the 8-digit and 2-digit formats
live only in the field descriptions. -/
theorem c8_code_fields_unconstrained (h s : Str) :
    SuggestedCode.validate (.obj [("hs_code".data, .str h), ("stat_code".data, .str s)]) =
      some { hs_code := h, stat_code := s, tco_link := none } := rfl

/-- C9 counterexample: pydantic accepts a SuggestedCode whose tco_link
does not match the documented TCO URL template, so the template
invariant does not hold of every model instance the schema admits. -/
theorem c9_counterexample :
    SuggestedCode.validate badLinkCode.dump = some badLinkCode
    ∧ badLinkCode.tco_link.map matchesTcoTemplate = some false :=
  ⟨rfl, rfl⟩

/-- C9 (amended): tco_link is declared as a plain optional string with
no format validator: pydantic validation accepts any string whatsoever
for it; the fixed URL template lives only in the field description. -/
theorem c9_tco_link_unconstrained (h s l : Str) :
    SuggestedCode.validate
        (.obj [("hs_code".data, .str h), ("stat_code".data, .str s),
               ("tco_link".data, .str l)]) =
      some { hs_code := h, stat_code := s, tco_link := some l } := rfl

/-- C10: each gateway operation strips surrounding whitespace before
validating, so a digit code padded with whitespace behaves exactly like
the bare code, and the trimmed code (not the original string) is what
the request URLs embed. -/
theorem c10_strip_whitespace (env : Env) (w1 w2 c : Str)
    (hw1 : ∀ a ∈ w1, isPySpace a = true) (hw2 : ∀ a ∈ w2, isPySpace a = true)
    (hc : pyIsDigit c = true) :
    tariff_chapter_lookup env (w1 ++ c ++ w2) = tariff_chapter_lookup env c
    ∧ tariff_search env (w1 ++ c ++ w2) = tariff_search env c
    ∧ tariff_concession_lookup env (w1 ++ c ++ w2) = tariff_concession_lookup env c
    ∧ (tariff_concession_lookup env (w1 ++ c ++ w2)).1 = [concessionUrl c]
    ∧ (4 ≤ c.length →
        (tariff_chapter_lookup env (w1 ++ c ++ w2)).1 = [tariffsUrl c, notesUrl (c.take 2)])
    ∧ (2 ≤ c.length → c.length ≤ 8 →
        (tariff_search env (w1 ++ c ++ w2)).1 = [tariffsUrl c]) := by
  have hp : pyStrip (w1 ++ c ++ w2) = c := pyStrip_pad hw1 hw2 hc
  have hq : pyStrip (w1 ++ c ++ w2) = pyStrip c := by rw [hp, pyStrip_digits hc]
  exact ⟨tariff_chapter_lookup_congr env hq, tariff_search_congr env hq,
    tariff_concession_lookup_congr env hq, concession_requests_eq env hp hc,
    fun hl => chapter_requests_eq env hp hc hl,
    fun h2 h8 => search_requests_eq env hp hc h2 h8⟩

/-- C10 witness: the code 1234 padded with a leading space and a
trailing newline. -/
theorem c10_witness :
    tariff_search http500Env (" ".data ++ "1234".data ++ "\n".data) =
      tariff_search http500Env "1234".data
    ∧ (tariff_search http500Env (" ".data ++ "1234".data ++ "\n".data)).1 =
      [tariffsUrl "1234".data] := by
  have h := c10_strip_whitespace http500Env " ".data "\n".data "1234".data
    (by decide) (by decide) (by decide)
  exact ⟨h.2.1, h.2.2.2.2.2 (by decide) (by decide)⟩

end AIClassifier
